import Mathlib

/-!
Verification development for the AutomationMenu process-orchestration core
(Smorkster/AutomationMenu). The Python source is shallowly embedded below:
pure helpers become Lean functions, the stateful coordinator/runner become
explicit state-passing functions, Python exceptions become an `Except`
result or an explicit `raised` field, and the shared output queue becomes
the list of items a call puts on it.
-/

set_option autoImplicit false

namespace AM

/-! ## Model of Python exceptions

Every Python exception is represented by its class together with the text
`str(e)` would produce where the code interpolates it into a message. -/

inductive PyExc where
  | runtimeError (msg : String)
  | attributeError (msg : String)
  | typeError (msg : String)
  | keyError (msg : String)
  | jsonDecodeError (msg : String)
  | osError (msg : String)
  | exc (msg : String)
  deriving DecidableEq, Repr

/-- `str(e)` for an exception value, as used in `'... {error}'.format( error = str( e ) )`. -/
def PyExc.str : PyExc → String
  | .runtimeError m => m
  | .attributeError m => m
  | .typeError m => m
  | .keyError m => m
  | .jsonDecodeError m => m
  | .osError m => m
  | .exc m => m

/-! ## Enums (automation_menu/models/enums.py) -/

/-- `OutputStyleTags` from models/enums.py. -/
inductive OutputStyleTags where
  | ERROR | INFO | SUCCESS | WARNING | SYSERROR | SYSINFO | SYSWARNING
  deriving DecidableEq, Repr

/-- The `.value` strings of `OutputStyleTags`. -/
def OutputStyleTags.value : OutputStyleTags → String
  | .ERROR => "suite_error"
  | .INFO => "suite_info"
  | .SUCCESS => "suite_success"
  | .WARNING => "suite_warning"
  | .SYSERROR => "suite_syserror"
  | .SYSINFO => "suite_sysinfo"
  | .SYSWARNING => "suite_syswarning"

/-- `tag.name.startswith( 'SYS' )`, used by the output dispatcher to decide
whether a line is recorded into the Execution Record. -/
def OutputStyleTags.isSys : OutputStyleTags → Bool
  | .SYSERROR => true
  | .SYSINFO => true
  | .SYSWARNING => true
  | _ => false

/-- `SysInstructions` from models/enums.py. -/
inductive SysInstructions where
  | CLEAROUTPUT | PROCESSTERMINATED
  deriving DecidableEq, Repr

/-! ## Queue items

The shared output queue receives either plain strings, `SysInstructions`
members, or dicts of the shape built throughout the source:
`\x7b 'line': ..., 'tag': ..., 'finished': ..., 'breakpoint': ..., 'exec_item': ... \x7d`.
Missing optional keys are modelled by the `false`/`none` defaults, matching
the `.get` lookups the consumer performs. `exec_item` is the identity of the
run's `ExecHistory` object (`none` models Python `None`). -/

structure QueueDict where
  line : String
  tag : OutputStyleTags
  finished : Bool := false
  breakpoint : Bool := false
  exec_item : Option Nat := none
  deriving DecidableEq, Repr

inductive QueueItem where
  | dict (d : QueueDict)
  | sys (s : SysInstructions)
  | str (s : String)
  deriving DecidableEq, Repr

/-! ## Execution Record (models/exechistory.py) -/

/-- `ExecHistory`: the per-run record.  Output entries keep only the text;
timestamps are outside the model. -/
structure ExecHistory where
  output : List String := []
  exit_code : Option Int := none
  was_terminated : Bool := false
  deriving DecidableEq, Repr

/-- `ExecHistory.set_exit_code`. -/
def ExecHistory.set_exit_code (h : ExecHistory) (exit_code : Int) : ExecHistory :=
  { h with exit_code := some exit_code }

/-- `ExecHistory.set_terminated`. -/
def ExecHistory.set_terminated (h : ExecHistory) : ExecHistory :=
  { h with was_terminated := true }

/-! ## Runner and coordinator state
(core/script_runner.py, core/script_execution_manager.py) -/

/-- The fields of a `ScriptRunner` object that the claims observe.
`rid` is the object's identity (used for the `self.current_runner == runner`
comparison), `current_process` the pid of the spawned child if any,
`exec_item` the identity of the `ExecHistory` created by `_create_process`
(`none` while the attribute is still unset). -/
structure RunnerState where
  rid : Nat
  current_process : Option Nat := none
  terminated : Bool := false
  in_breakpoint : Bool := false
  exec_item : Option Nat := none
  deriving DecidableEq, Repr

/-- `ScriptRunner.__init__`: fresh runner with no process, not terminated,
not in a breakpoint, and the `_exec_item` attribute not yet set. -/
def freshRunner (rid : Nat) : RunnerState :=
  { rid := rid }

/-- The mutable fields of `ScriptExecutionManager`. -/
structure MgrState where
  current_runner : Option RunnerState := none
  paused : Bool := false
  deriving DecidableEq, Repr

/-- `ScriptExecutionManager.is_paused`. -/
def is_paused (st : MgrState) : Bool :=
  st.paused

/-- `ScriptExecutionManager.is_running`:
`self.current_runner is not None and not self._paused`. -/
def is_running (st : MgrState) : Bool :=
  st.current_runner.isSome && !st.paused

/-- The message of the single-flight `RuntimeError` raised by `create_runner`. -/
def alreadyRunningMsg : String :=
  "Another script is running, only one allowed at a time."

/-- The locked entry section of `ScriptExecutionManager.create_runner`:
if a runner is already registered, raise; otherwise construct a fresh
`ScriptRunner` and register it. -/
def create_runner_enter (st : MgrState) (rid : Nat) :
    Except PyExc (MgrState × RunnerState) :=
  match st.current_runner with
  | some _ => .error (.runtimeError alreadyRunningMsg)
  | none =>
      let runner := freshRunner rid
      .ok ({ st with current_runner := some runner }, runner)

/-- What the caller's `with`-body does: it may mutate the runner object and
either return normally or raise an exception. -/
inductive BodyOutcome where
  | normal
  | raises (e : PyExc)

/-- Result of one full pass through the `create_runner` context manager:
the exception propagating to the caller (if any), the queue items the
context manager itself put, and the final manager state. -/
structure ScopeResult where
  raised : Option PyExc
  events : List QueueDict
  final : MgrState

/-- `ScriptExecutionManager.create_runner`, whole context-manager cycle.
`body` is the caller's `with`-block, given the freshly constructed runner
and returning the (possibly mutated) runner together with its outcome.
On a body exception the handler builds a SYSERROR dict referencing
`runner._exec_item`; when that attribute was never set the handler itself
raises `AttributeError` while evaluating the dict, so no event is put and
the `AttributeError` propagates instead.  The `finally` block always
clears `current_runner` (the identity comparison with `runner` holds). -/
def create_runner_scope (st : MgrState) (rid : Nat)
    (body : RunnerState → RunnerState × BodyOutcome) : ScopeResult :=
  match st.current_runner with
  | some _ => { raised := some (.runtimeError alreadyRunningMsg), events := [], final := st }
  | none =>
      match body (freshRunner rid) with
      | (_, .normal) =>
          { raised := none, events := [], final := { st with current_runner := none } }
      | (r1, .raises e) =>
          match r1.exec_item with
          | some eid =>
              { raised := some e,
                events := [{ line := "Exception ❗: " ++ e.str,
                             tag := .SYSERROR,
                             finished := true,
                             exec_item := some eid }],
                final := { st with current_runner := none } }
          | none =>
              { raised := some (.attributeError
                  "ScriptRunner object has no attribute _exec_item"),
                events := [],
                final := { st with current_runner := none } }

/-! ## Pause / resume (script_execution_manager.py)

`os` maps a pid to whether `psutil.Process( pid )` succeeds; when the
process has already exited the constructor raises `NoSuchProcess`, the
only exception the source catches.  A missing runner (`current_runner is
None`) or a never-spawned process makes the attribute access
`self.current_runner.current_process.pid` raise `AttributeError`, which is
not caught. -/

/-- `ScriptExecutionManager.pause_current_script`.  On success it suspends
the tree and sets `self._paused = True`, returning `True`. -/
def pause_current_script (st : MgrState) (os : Nat → Bool) :
    Except PyExc (MgrState × Bool) :=
  match st.current_runner with
  | none => .error (.attributeError "NoneType object has no attribute current_process")
  | some r =>
      match r.current_process with
      | none => .error (.attributeError "NoneType object has no attribute pid")
      | some pid =>
          if os pid then
            .ok ({ st with paused := true }, true)
          else
            .ok (st, false)

/-- `ScriptExecutionManager.resume_current_script`.  The source resumes the
process tree but then executes `self._paused = True` (not `False`) before
returning `True`. -/
def resume_current_script (st : MgrState) (os : Nat → Bool) :
    Except PyExc (MgrState × Bool) :=
  match st.current_runner with
  | none => .error (.attributeError "NoneType object has no attribute current_process")
  | some r =>
      match r.current_process with
      | none => .error (.attributeError "NoneType object has no attribute pid")
      | some pid =>
          if os pid then
            .ok ({ st with paused := true }, true)
          else
            .ok (st, false)

/-! ## Python string helpers -/

/-- Does `sub` occur as a contiguous run inside `s`?  Models the Python
`sub in s` test on strings. -/
def listContains (sub s : List Char) : Bool :=
  match s with
  | [] => sub.isEmpty
  | _ :: tl => sub.isPrefixOf s || listContains sub tl

/-- Python `sub in s` for `String`. -/
def pyIn (sub s : String) : Bool :=
  listContains sub.data s.data

/-- Python `str.lower` (ASCII case folding is all the embedded inputs use). -/
def pyLower (s : String) : String :=
  ⟨s.data.map Char.toLower⟩

/-- The whitespace set stripped by Python `str.rstrip()`. -/
def isPySpace (c : Char) : Bool :=
  c = ' ' || c = '\t' || c = '\n' || c = '\r' || c = '\x0b' || c = '\x0c'

/-- Python `str.rstrip()`. -/
def pyRstrip (s : String) : String :=
  ⟨(s.data.reverse.dropWhile isPySpace).reverse⟩

/-! ## A small backtracking regex engine

Models the fragment of Python `re` the source uses: literal text, greedy
`.*`, lazy `.+?`, a capturing group wrapper (the source never reads
`group(1)`, so the wrapper is transparent), and concatenation.  `.` does
not match a newline.  A pattern starting with `^` is run with
`reSearchAnchored`; otherwise `reSearch` tries every start position left
to right, as `re.search` does. -/

inductive RE where
  | lit (cs : List Char)
  | dotStar
  | dotPlusLazy
  | grp (r : RE)
  | seq (a b : RE)

/-- Greedy choice: try dropping `n` characters first, then `n - 1`, ... 0,
feeding the rest of the input to the continuation `k`. -/
def tryGreedy {α : Type} (s : List Char) (k : List Char → Option α) :
    Nat → Option α
  | 0 => k s
  | n + 1 =>
      match k (s.drop (n + 1)) with
      | some r => some r
      | none => tryGreedy s k n

/-- Lazy choice: try dropping `i` characters, then `i + 1`, ... while the
fuel lasts. -/
def tryLazy {α : Type} (s : List Char) (k : List Char → Option α) :
    Nat → Nat → Option α
  | 0, _ => none
  | fuel + 1, i =>
      match k (s.drop i) with
      | some r => some r
      | none => tryLazy s k fuel (i + 1)

/-- Run pattern `r` at the start of `s`; the continuation receives the
input remaining after `r`'s match.  Backtracking is realised by the
`Option`-valued continuation. -/
def reRun (r : RE) (s : List Char) (k : List Char → Option (List Char)) :
    Option (List Char) :=
  match r with
  | .lit cs => if cs.isPrefixOf s then k (s.drop cs.length) else none
  | .dotStar => tryGreedy s k (s.takeWhile (fun c => c ≠ '\n')).length
  | .dotPlusLazy => tryLazy s k (s.takeWhile (fun c => c ≠ '\n')).length 1
  | .grp r1 => reRun r1 s k
  | .seq a b => reRun a s (fun s1 => reRun b s1 k)

/-- A successful `re.search`: the start offset of the match in the input
and the matched text (`group(0)`). -/
structure MatchRes where
  start : Nat
  matched : String
  deriving DecidableEq, Repr

/-- `re.search` for a pattern anchored with `^`: only position 0 is tried. -/
def reSearchAnchored (r : RE) (s : String) : Option MatchRes :=
  match reRun r s.data some with
  | some rest => some { start := 0, matched := ⟨s.data.take (s.data.length - rest.length)⟩ }
  | none => none

/-- One step of the unanchored search loop: try positions `i`, `i + 1`, ...
while the fuel lasts. -/
def reSearchFrom (r : RE) (s : List Char) : Nat → Nat → Option MatchRes
  | 0, _ => none
  | fuel + 1, i =>
      let sub := s.drop i
      match reRun r sub some with
      | some rest =>
          some { start := i, matched := ⟨sub.take (sub.length - rest.length)⟩ }
      | none => reSearchFrom r s fuel (i + 1)

/-- `re.search` for an unanchored pattern. -/
def reSearch (r : RE) (s : String) : Option MatchRes :=
  reSearchFrom r s.data (s.data.length + 1) 0

/-- Python `repr` of a string: single quotes around the text (the inputs
reaching it contain no characters Python would escape). -/
def pyReprStr (s : String) : String :=
  "\x27" ++ s ++ "\x27"

/-- CPython `re.Match.__repr__`:
`<re.Match object; span=(a, b), match=%.50R>` — the repr of `group(0)`
truncated to 50 characters.  This is the text `str( match )` interpolates. -/
def matchRepr (m : MatchRes) : String :=
  "<re.Match object; span=(" ++ toString m.start ++ ", "
    ++ toString (m.start + m.matched.length) ++ "), match="
    ++ ⟨(pyReprStr m.matched).data.take 50⟩ ++ ">"

/-! ## Breakpoint detection and the stdout reader (core/script_runner.py) -/

/-- Pattern (a): the interpreter debugger's module-frame marker,
`^.*\((.*)\)<module>\(\)`, applied to the lower-cased line. -/
def breakpointModulePattern : RE :=
  .seq .dotStar (.seq (.lit "(".data) (.seq (.grp .dotStar) (.lit ")<module>()".data)))

/-- Pattern (b): `At .*:{l}`.  The `\x7bl\x7d` part is not a valid
repetition, so `re` treats it as the literal text `:` `\x7b` `l` `\x7d`. -/
def breakpointShellPattern : RE :=
  .seq (.lit "At ".data) (.seq .dotStar (.lit (":\x7bl\x7d").data))

/-- `ScriptRunner._is_breakpoint_line`: the first search runs on
`line.lower()`; Python `or` yields the first truthy match object. -/
def is_breakpoint_line (line : String) : Option MatchRes :=
  match reSearchAnchored breakpointModulePattern (pyLower line) with
  | some m => some m
  | none => reSearch breakpointShellPattern line

/-- One iteration of the `ScriptRunner._read_stdout` loop for a
successfully read, non-empty line: breakpoint lines flip
`_in_breakpoint` and put a SYSINFO dict carrying the `breakpoint` flag,
whose `\x7b line_nr \x7d` slot is filled with `str` of the match object; other
lines are put as INFO output after `rstrip`. -/
def read_stdout_line (r : RunnerState) (line : String) :
    RunnerState × List QueueDict :=
  match is_breakpoint_line line with
  | some m =>
      ({ r with in_breakpoint := true },
       [{ line := "A breakpoint occured in the script at row " ++ matchRepr m
            ++ ". Click \x27Continue\x27 to reactivate script.",
          tag := .SYSINFO,
          breakpoint := true,
          exec_item := r.exec_item }])
  | none =>
      (r, [{ line := pyRstrip line, tag := .INFO, exec_item := r.exec_item }])

/-- One iteration of `ScriptRunner._read_stderr` for a read line. -/
def read_stderr_line (r : RunnerState) (line : String) : List QueueDict :=
  [{ line := pyRstrip line, tag := .ERROR, exec_item := r.exec_item }]

/-! ## Termination and the completion waiter (core/script_runner.py) -/

/-- The exception `_process_reaper` may raise, by handler branch. -/
inductive KillExc where
  | subprocessError (msg : String)
  | other (msg : String)
  deriving DecidableEq, Repr

/-- `ScriptRunner.terminate`: a no-op without a process; otherwise it sets
`self._terminated = True`, puts the `PROCESSTERMINATED` control item, and
reaps the process tree; a reaper exception adds one SYSERROR dict. -/
def terminate_runner (r : RunnerState) (killErr : Option KillExc) :
    RunnerState × List QueueItem :=
  match r.current_process with
  | none => (r, [])
  | some _ =>
      let r1 := { r with terminated := true }
      let base := [QueueItem.sys .PROCESSTERMINATED]
      match killErr with
      | none => (r1, base)
      | some (.subprocessError m) =>
          (r1, base ++ [.dict { line := "Termination - SubprocessError: " ++ m,
                                tag := .SYSERROR, exec_item := r.exec_item }])
      | some (.other m) =>
          (r1, base ++ [.dict { line := "Termination - Exception: " ++ m,
                                tag := .SYSERROR, exec_item := r.exec_item }])

/-- `ScriptRunner._read_monitor_completion` once `wait()` returns `rc`:
record the exit code, mark the record terminated when the user terminated
the run, put the terminal event with its severity, and reset the
coordinator's paused flag.  (The UI-callback resets `update_progress(0)`,
`hide_progress()`, `clear_status()` are presentation-side and carry no
state observed by the claims.) -/
def read_monitor_completion (r : RunnerState) (exec : ExecHistory)
    (mgr : MgrState) (rc : Int) : ExecHistory × QueueDict × MgrState :=
  let exec1 := exec.set_exit_code rc
  if r.terminated then
    (exec1.set_terminated,
     { line := "Script terminated", tag := .SYSINFO, finished := true,
       exec_item := r.exec_item },
     { mgr with paused := false })
  else if rc = 0 then
    (exec1,
     { line := "Script completed successfully", tag := .SUCCESS, finished := true,
       exec_item := r.exec_item },
     { mgr with paused := false })
  else
    (exec1,
     { line := "Script failed with exit code " ++ toString rc, tag := .SYSERROR,
       finished := true, exec_item := r.exec_item },
     { mgr with paused := false })

/-! ## The embedded protocol sentinels (api/script_api.py) -/

def MESSAGE_START : String := "__API_START__"

def MESSAGE_END : String := "__API_END__"

/-- The framing and write attempt inside `ScriptRunner.send_api_response`:
`AttributeError` when no process was ever spawned (`None.stdin`), an
`OSError` when the child's stdin pipe is no longer writable, otherwise the
framed line is written and flushed. -/
def send_api_response_attempt (proc : Option Nat) (stdinOpen : Bool)
    (response : String) : Except PyExc (List String) :=
  let msg := MESSAGE_START ++ response ++ MESSAGE_END ++ "\n"
  match proc with
  | none => .error (.attributeError "NoneType object has no attribute stdin")
  | some _ =>
      if stdinOpen then .ok [msg]
      else .error (.osError "stdin closed")

/-- `ScriptRunner.send_api_response`: the bare `except: pass` makes every
failure silent; the function returns the lines actually written to the
child's stdin and the queue items it put (always none). -/
def send_api_response (proc : Option Nat) (stdinOpen : Bool)
    (response : String) : List String × List QueueItem :=
  match send_api_response_attempt proc stdinOpen response with
  | .ok written => (written, [])
  | .error _ => ([], [])

/-! ## JSON values (the subset carried by the embedded protocol)

`json.dumps` / `json.loads` are modelled over JSON values with integer
numbers (every number the protocol's claims exercise is an integer;
floats are outside the model, so `json_loads` rejects them). -/

inductive JVal where
  | jnull
  | jbool (b : Bool)
  | jnum (n : Int)
  | jstr (s : String)
  | jarr (xs : List JVal)
  | jobj (fields : List (String × JVal))
  deriving Repr

def quoteChar : Char := Char.ofNat 34

def backslashChar : Char := Char.ofNat 92

def lbraceChar : Char := Char.ofNat 123

def rbraceChar : Char := Char.ofNat 125

/-- JSON escaping of one character, as `json.dumps` emits it. -/
def jescapeChar (c : Char) : String :=
  if c = quoteChar then String.mk [backslashChar, quoteChar]
  else if c = backslashChar then String.mk [backslashChar, backslashChar]
  else if c = '\n' then String.mk [backslashChar, 'n']
  else if c = '\t' then String.mk [backslashChar, 't']
  else if c = '\r' then String.mk [backslashChar, 'r']
  else String.singleton c

/-- `json.dumps` of a string. -/
def jdumpStr (s : String) : String :=
  String.singleton quoteChar ++ String.join (s.data.map jescapeChar)
    ++ String.singleton quoteChar

mutual

/-- `json.dumps` with the default separators `', '` and `': '`. -/
def jdump : JVal → String
  | .jnull => "null"
  | .jbool true => "true"
  | .jbool false => "false"
  | .jnum n => toString n
  | .jstr s => jdumpStr s
  | .jarr xs => "[" ++ jdumpList xs ++ "]"
  | .jobj fs => String.singleton lbraceChar ++ jdumpFields fs ++ String.singleton rbraceChar

def jdumpList : List JVal → String
  | [] => ""
  | [x] => jdump x
  | x :: y :: xs => jdump x ++ ", " ++ jdumpList (y :: xs)

def jdumpFields : List (String × JVal) → String
  | [] => ""
  | [(k, v)] => jdumpStr k ++ ": " ++ jdump v
  | (k, v) :: f :: fs => jdumpStr k ++ ": " ++ jdump v ++ ", " ++ jdumpFields (f :: fs)

end

/-- Whitespace skipped between JSON tokens. -/
def skipWs (s : List Char) : List Char :=
  match s with
  | c :: tl => if c = ' ' || c = '\t' || c = '\n' || c = '\r' then skipWs tl else c :: tl
  | [] => []

/-- Body of a JSON string after the opening quote; supports the escapes the
codec emits. -/
def parseStrBody : Nat → List Char → List Char → Option (String × List Char)
  | 0, _, _ => none
  | _, [], _ => none
  | fuel + 1, c :: tl, acc =>
      if c = quoteChar then some (⟨acc.reverse⟩, tl)
      else if c = backslashChar then
        match tl with
        | [] => none
        | e :: tl2 =>
            if e = quoteChar then parseStrBody fuel tl2 (quoteChar :: acc)
            else if e = backslashChar then parseStrBody fuel tl2 (backslashChar :: acc)
            else if e = '/' then parseStrBody fuel tl2 ('/' :: acc)
            else if e = 'n' then parseStrBody fuel tl2 ('\n' :: acc)
            else if e = 't' then parseStrBody fuel tl2 ('\t' :: acc)
            else if e = 'r' then parseStrBody fuel tl2 ('\r' :: acc)
            else none
      else parseStrBody fuel tl (c :: acc)

/-- A run of decimal digits; fails when none is present. -/
def parseDigits : List Char → Nat → Bool → Option (Nat × List Char)
  | c :: tl, acc, seen =>
      if c.isDigit then parseDigits tl (acc * 10 + (c.toNat - 48)) true
      else if seen then some (acc, c :: tl) else none
  | [], acc, seen => if seen then some (acc, []) else none

mutual

/-- Recursive-descent JSON value parser (fuel bounds the nesting). -/
def parseVal : Nat → List Char → Option (JVal × List Char)
  | 0, _ => none
  | fuel + 1, s0 =>
      let s := skipWs s0
      match s with
      | [] => none
      | c :: tl =>
          if c = 'n' then
            if "ull".data.isPrefixOf tl then some (.jnull, tl.drop 3) else none
          else if c = 't' then
            if "rue".data.isPrefixOf tl then some (.jbool true, tl.drop 3) else none
          else if c = 'f' then
            if "alse".data.isPrefixOf tl then some (.jbool false, tl.drop 4) else none
          else if c = quoteChar then
            match parseStrBody (tl.length + 1) tl [] with
            | some (str, rest) => some (.jstr str, rest)
            | none => none
          else if c = '-' then
            match parseDigits tl 0 false with
            | some (n, rest) => some (.jnum (-(n : Int)), rest)
            | none => none
          else if c.isDigit then
            match parseDigits s 0 false with
            | some (n, rest) => some (.jnum (n : Int), rest)
            | none => none
          else if c = '[' then
            match skipWs tl with
            | ']' :: r => some (.jarr [], r)
            | s2 =>
                match parseArrItems fuel s2 with
                | some (xs, rest) => some (.jarr xs, rest)
                | none => none
          else if c = lbraceChar then
            match skipWs tl with
            | c2 :: r =>
                if c2 = rbraceChar then some (.jobj [], r)
                else
                  match parseObjItems fuel (c2 :: r) with
                  | some (fs, rest) => some (.jobj fs, rest)
                  | none => none
            | [] => none
          else none

/-- Comma-separated array items up to the closing bracket. -/
def parseArrItems : Nat → List Char → Option (List JVal × List Char)
  | 0, _ => none
  | fuel + 1, s =>
      match parseVal fuel s with
      | none => none
      | some (v, rest) =>
          match skipWs rest with
          | ',' :: r2 =>
              match parseArrItems fuel r2 with
              | some (xs, r3) => some (v :: xs, r3)
              | none => none
          | ']' :: r2 => some ([v], r2)
          | _ => none

/-- Comma-separated `key: value` members up to the closing brace. -/
def parseObjItems : Nat → List Char → Option (List (String × JVal) × List Char)
  | 0, _ => none
  | fuel + 1, s0 =>
      match skipWs s0 with
      | c :: tl =>
          if c = quoteChar then
            match parseStrBody (tl.length + 1) tl [] with
            | none => none
            | some (k, rest) =>
                match skipWs rest with
                | ':' :: r2 =>
                    match parseVal fuel r2 with
                    | none => none
                    | some (v, r3) =>
                        match skipWs r3 with
                        | ',' :: r4 =>
                            match parseObjItems fuel r4 with
                            | some (fs, r5) => some ((k, v) :: fs, r5)
                            | none => none
                        | c4 :: r4 =>
                            if c4 = rbraceChar then some ([(k, v)], r4) else none
                        | [] => none
                | _ => none
          else none
      | [] => none

end

/-- `json.loads`: parse one value and require only whitespace after it;
`none` models a raised `json.JSONDecodeError`. -/
def json_loads (s : String) : Option JVal :=
  match parseVal (s.length + 1) s.data with
  | some (v, rest) => if (skipWs rest).isEmpty then some v else none
  | none => none

/-! ## Child-side encoder (api/script_api.py `_send`) -/

/-- The dict `_send` builds: `\x7b 'type': msg_type, 'data': data \x7d`. -/
def send_message (msg_type : String) (data : JVal) : JVal :=
  .jobj [("type", .jstr msg_type), ("data", data)]

/-- `_send`: one line printed to stdout and flushed, the JSON framed by the
sentinels (`print` appends the newline). -/
def send_line (msg_type : String) (data : JVal) : String :=
  MESSAGE_START ++ jdump (send_message msg_type data) ++ MESSAGE_END ++ "\n"

/-! ## Output Dispatcher (ui/async_output_controller.py) -/

/-- One entry produced through the controller's loggers.  An entry is
identified by the logging call that made it (its level and format string);
the constructor payload holds the data the source interpolates.
`errorCouldNotDecode captured` is the `self._logger.error` call on a
`json.JSONDecodeError` raised while decoding `captured`;
`errorAsyncProcessor` is the `logging.error` in `_async_processor`'s
`except` clause. -/
inductive LogMsg where
  | warning (text : String)
  | errorCouldNotDecode (captured : String)
  | errorAsyncProcessor (text : String)
  deriving DecidableEq, Repr

/-- Is the entry at warning level? -/
def LogMsg.isWarning : LogMsg → Bool
  | .warning _ => true
  | _ => false

/-- The dict `_parse_api_message` returns on success:
`\x7b 'type': 'api', 'handler': ..., 'data': ... \x7d`. -/
structure ApiDict where
  handler : String
  data : Option JVal
  deriving Repr

/-- Python `dict.get` on a decoded JSON object. -/
def jobjGet : List (String × JVal) → String → Option JVal
  | [], _ => none
  | (k, v) :: fs, key => if k = key then some v else jobjGet fs key

/-- The envelope regex `__API_START__(.+?)__API_END__`. -/
def apiEnvelopePattern : RE :=
  .seq (.lit MESSAGE_START.data) (.seq (.grp .dotPlusLazy) (.lit MESSAGE_END.data))

/-- `group( 1 )` for the envelope pattern: the match is
`__API_START__` ++ capture ++ `__API_END__`, so the capture is the matched
text with the two literals stripped. -/
def envelopeCapture (m : MatchRes) : String :=
  ⟨(m.matched.data.drop MESSAGE_START.length).take
    (m.matched.data.length - MESSAGE_START.length - MESSAGE_END.length)⟩

/-- `AsyncOutputController._parse_api_message` on `queue_item[ 'line' ]`.
No envelope match or an unrecognized `type` falls off the function
(Python returns `None`); a decode failure logs through `_logger.error`
and returns `None`; missing keys or non-dict values raise, which the
result's `error` branch carries. -/
def parse_api_message (line : String) :
    Except PyExc (Option ApiDict × List LogMsg) :=
  match reSearch apiEnvelopePattern line with
  | none => .ok (none, [])
  | some m =>
      let captured := envelopeCapture m
      match json_loads captured with
      | none => .ok (none, [.errorCouldNotDecode captured])
      | some api_msg =>
          match api_msg with
          | .jobj fields =>
              match jobjGet fields "type" with
              | none => .error (.keyError "type")
              | some ty =>
                  match ty with
                  | .jstr "progress" =>
                      match jobjGet fields "data" with
                      | none => .error (.attributeError
                          "NoneType object has no attribute get")
                      | some dataV =>
                          match dataV with
                          | .jobj dfs =>
                              let got : Option JVal :=
                                match jobjGet dfs "set" with
                                | some v => some v
                                | none => jobjGet dfs "percent"
                              let handler : String :=
                                match got with
                                | some (.jstr s) => s
                                | _ => "update"
                              .ok (some { handler := handler ++ "_progress",
                                          data := some dataV }, [])
                          | _ => .error (.attributeError
                              "object has no attribute get")
                  | .jstr "status" =>
                      match jobjGet fields "data" with
                      | none => .error (.attributeError
                          "NoneType object has no attribute get")
                      | some dataV =>
                          match dataV with
                          | .jobj dfs =>
                              let call_type : String :=
                                match jobjGet dfs "set" with
                                | some (.jstr s) =>
                                    if s = "clear" || s = "get" then s else "set"
                                | _ => "set"
                              .ok (some { handler := call_type ++ "_status",
                                          data := some dataV }, [])
                          | _ => .error (.attributeError
                              "object has no attribute get")
                  | .jstr "setting" =>
                      .ok (some { handler := "setting",
                                  data := jobjGet fields "data" }, [])
                  | _ => .ok (none, [])
          | _ => .error (.typeError "value is not subscriptable by string")

/-- The three shapes `_normalize_queue_item` can hand on: plain dicts,
parsed API dicts, and anything else returned unchanged. -/
inductive NormItem where
  | plain (d : QueueDict)
  | api (a : ApiDict)
  | passthrough (q : QueueItem)
  deriving Repr

/-- `AsyncOutputController._normalize_queue_item`. -/
def normalize_queue_item (q : QueueItem) :
    Except PyExc (Option NormItem × List LogMsg) :=
  match q with
  | .str s => .ok (some (.plain { line := pyRstrip s, tag := .INFO }), [])
  | .dict d =>
      if pyIn "__API_START__" d.line then
        match parse_api_message d.line with
        | .ok (some a, logs) => .ok (some (.api a), logs)
        | .ok (none, logs) => .ok (none, logs)
        | .error e => .error e
  else .ok (some (.plain d), [])
  | .sys s => .ok (some (.passthrough (.sys s)), [])

/-- What one consumer-loop pass hands to the UI thread. -/
inductive UIEvent where
  | clearNow
  | scheduled (item : NormItem)
  deriving Repr

/-- `AsyncOutputController._schedule_ui_update`: a falsy processed item
(`None`) schedules nothing. -/
def schedule_ui_update (processed : Option NormItem) : List UIEvent :=
  match processed with
  | some i => [.scheduled i]
  | none => []

/-- One pass of `_async_processor` over a dequeued item:
`PROCESSTERMINATED` is filtered out; `_async_process_queue_item` drops the
`'timeout'` marker, clears immediately on `CLEAROUTPUT`, then normalizes;
the result is scheduled; any exception is caught and logged, keeping the
loop alive. -/
def consumer_step (q : QueueItem) : List UIEvent × List LogMsg :=
  if q = .sys .PROCESSTERMINATED then ([], [])
  else if q = .str "timeout" then ([], [])
  else
    let pre : List UIEvent := if q = .sys .CLEAROUTPUT then [.clearNow] else []
    match normalize_queue_item q with
    | .ok (processed, logs) => (pre ++ schedule_ui_update processed, logs)
    | .error e => (pre, [.errorAsyncProcessor e.str])

/-! ## Sequence Orchestrator (ui/sequence_manager.py `_sequence_runner`) -/

/-- The fields of a `SequenceStep` the runner reads. -/
structure SeqStep where
  step_index : Int
  stop_on_error : Bool
  deriving DecidableEq, Repr

/-- Outcome of one step's synchronous run, read back from the runner after
`current_process.wait()`: the Execution Record's exit code, the
`_terminated` flag and the record's identity. -/
structure StepRun where
  exit_code : Int
  terminated : Bool
  exec_item : Nat
  deriving DecidableEq, Repr

/-- The loop body and loop of `SequenceManager._sequence_runner`, one entry
per step paired with that step's run outcome.  Returns the indexes of the
steps that were started and the queue dicts the orchestrator itself put.
The shadowed `run_success` mirrors the source: the branch assignments at
lines 817/827/836 are overwritten by the unconditional `run_success = 0`
(line 838) before the `if run_success > 0` test. -/
def sequence_runner_loop (seq_stop : Bool) :
    List (SeqStep × StepRun) → List Int × List QueueDict
  | [] => ([], [])
  | (step, res) :: rest =>
      let effective_stop := step.stop_on_error || seq_stop
      let stepEvents : List QueueDict :=
        if res.terminated then
          [{ line := "Aborted by user at step " ++ toString step.step_index,
             tag := .SYSINFO, exec_item := some res.exec_item }]
        else if res.exit_code ≠ 0 then
          if effective_stop then
            [{ line := "Stopped on error at step " ++ toString step.step_index
                 ++ " (exit code: " ++ toString res.exit_code ++ ")",
               tag := .SYSERROR, exec_item := some res.exec_item }]
          else
            [{ line := "Step " ++ toString step.step_index
                 ++ " failed (exit code " ++ toString res.exit_code ++ ")",
               tag := .SYSWARNING, exec_item := some res.exec_item }]
        else []
      let _run_success_assigned : Nat :=
        if res.terminated then 1
        else if res.exit_code ≠ 0 then (if effective_stop then 2 else 3)
        else 0
      let run_success : Nat := 0
      if run_success > 0 then
        ([step.step_index],
         stepEvents ++ [{ line := "Sequence stopped due to individual step error",
                          tag := .SYSWARNING, exec_item := none }])
      else
        let (ran, evs) := sequence_runner_loop seq_stop rest
        (step.step_index :: ran, stepEvents ++ evs)

/-- `SequenceManager._sequence_runner` over a whole sequence. -/
def sequence_runner (seq_stop : Bool) (steps : List (SeqStep × StepRun)) :
    List Int × List QueueDict :=
  sequence_runner_loop seq_stop steps

/-! ## Theorems -/

/-- C10: `send_api_response( response )` never raises for any input and any
state of the child process: when a process exists and its stdin accepts the
write, exactly the framed line start-sentinel ++ response ++ end-sentinel ++
newline is written; on any write/flush failure (stdin closed, or no process
ever spawned) the response is silently dropped; in every case no queue event
is put and no exception reaches the caller (the function is total, the
attempted raise being swallowed by the bare `except`). -/
theorem send_api_response_silent_total (proc : Option Nat) (stdinOpen : Bool)
    (response : String) :
    send_api_response proc stdinOpen response =
      (if proc.isSome && stdinOpen then
        [MESSAGE_START ++ response ++ MESSAGE_END ++ "\n"]
      else [], []) := by
  cases proc <;> cases stdinOpen <;>
    simp [send_api_response, send_api_response_attempt]

/-- C10 witness: a live process accepts the framed response; a missing
process drops it silently. -/
theorem send_api_response_silent_total_witness :
    send_api_response (some 100) true "pong" =
      ([MESSAGE_START ++ "pong" ++ MESSAGE_END ++ "\n"], []) ∧
    send_api_response none true "pong" = ([], []) := by
  exact ⟨by rw [send_api_response_silent_total (some 100) true "pong"]; rfl,
    by rw [send_api_response_silent_total none true "pong"]; rfl⟩

/-- C4 (code bug): with an active runner whose process is alive and paused,
`resume_current_script()` returns `True` but executes `self._paused = True`
instead of clearing the flag, so immediately afterwards `is_paused()` is
still `true` and `is_running()` is `false` — resume does not reverse pause. -/
theorem resume_current_script_keeps_paused :
    resume_current_script
        { current_runner := some { rid := 0, current_process := some 100 },
          paused := true }
        (fun pid => pid == 100) =
      .ok ({ current_runner := some { rid := 0, current_process := some 100 },
             paused := true }, true) ∧
    is_paused { current_runner := some { rid := 0, current_process := some 100 },
                paused := true } = true ∧
    is_running { current_runner := some { rid := 0, current_process := some 100 },
                 paused := true } = false := by
  refine ⟨rfl, rfl, rfl⟩

/-- C9 (counterexample): with no active runner, `pause_current_script()` and
`resume_current_script()` do not return `false` — the attribute access
`self.current_runner.current_process.pid` raises `AttributeError`, which the
`except NoSuchProcess` clause does not catch. -/
theorem pause_resume_no_runner_raise :
    pause_current_script { } (fun _ => true) =
      .error (.attributeError "NoneType object has no attribute current_process") ∧
    resume_current_script { } (fun _ => true) =
      .error (.attributeError "NoneType object has no attribute current_process") := by
  exact ⟨rfl, rfl⟩

/-- C9 (amended): when a runner is active but its process has already exited
(`psutil.Process` raises `NoSuchProcess`, the one caught exception), both
calls return `false` without raising and leave the manager state — hence the
paused flag — unchanged; when no runner is active, both calls raise
`AttributeError` instead, also leaving the state unchanged. -/
theorem pause_resume_exited_returns_false (st : MgrState) (r : RunnerState)
    (pid : Nat) (os : Nat → Bool) (hr : st.current_runner = some r)
    (hp : r.current_process = some pid) (hdead : os pid = false) :
    pause_current_script st os = .ok (st, false) ∧
    resume_current_script st os = .ok (st, false) ∧
    ∀ st2 : MgrState, st2.current_runner = none →
      pause_current_script st2 os =
        .error (.attributeError "NoneType object has no attribute current_process") ∧
      resume_current_script st2 os =
        .error (.attributeError "NoneType object has no attribute current_process") := by
  refine ⟨?_, ?_, ?_⟩
  · simp [pause_current_script, hr, hp, hdead]
  · simp [resume_current_script, hr, hp, hdead]
  · intro st2 h2
    exact ⟨by simp [pause_current_script, h2], by simp [resume_current_script, h2]⟩

/-- C9 witness: the amended statement instantiated at a live state whose
process 100 is gone, and a runner-less state. -/
theorem pause_resume_exited_returns_false_witness :
    ({ current_runner := some { rid := 0, current_process := some 100 },
       paused := false } : MgrState).current_runner =
        some { rid := 0, current_process := some 100 } ∧
    ({ rid := 0, current_process := some 100 } : RunnerState).current_process =
        some 100 ∧
    (fun _ : Nat => false) 100 = false ∧
    pause_current_script
        { current_runner := some { rid := 0, current_process := some 100 },
          paused := false } (fun _ => false) =
      .ok ({ current_runner := some { rid := 0, current_process := some 100 },
             paused := false }, false) := by
  refine ⟨rfl, rfl, rfl, ?_⟩
  exact (pause_resume_exited_returns_false
    { current_runner := some { rid := 0, current_process := some 100 },
      paused := false }
    { rid := 0, current_process := some 100 } 100 (fun _ => false)
    rfl rfl rfl).1

/-- C2: while a previously acquired runner is still active, any further
`create_runner()` call fails synchronously inside the locked section with
`RuntimeError( 'Another script is running, only one allowed at a time.' )`,
putting no event and leaving the manager unchanged — so the single
`current_runner` slot (and with it the at-most-one-active-runner invariant)
is preserved. -/
theorem create_runner_single_flight (st : MgrState) (rid : Nat)
    (body : RunnerState → RunnerState × BodyOutcome) (r : RunnerState)
    (h : st.current_runner = some r) :
    (create_runner_scope st rid body).raised =
      some (.runtimeError "Another script is running, only one allowed at a time.") ∧
    (create_runner_scope st rid body).events = [] ∧
    (create_runner_scope st rid body).final = st := by
  unfold create_runner_scope
  rw [h]
  exact ⟨rfl, rfl, rfl⟩

/-- C2 witness: a second acquisition against a manager already holding
runner 0 fails with the single-flight error. -/
theorem create_runner_single_flight_witness :
    ({ current_runner := some { rid := 0 } } : MgrState).current_runner =
        some { rid := 0 } ∧
    (create_runner_scope { current_runner := some { rid := 0 } } 1
        (fun r => (r, .normal))).raised =
      some (.runtimeError "Another script is running, only one allowed at a time.") := by
  exact ⟨rfl, (create_runner_single_flight
    { current_runner := some { rid := 0 } } 1 (fun r => (r, .normal))
    { rid := 0 } rfl).1⟩

/-- C3: if the body of a `create_runner()` scope raises any exception (and
the runner's Execution Record was created), exactly one SYSERROR event
tagged with that record and carrying the `finished` flag is put on the
output queue, the exception is re-raised to the caller, and the
single-flight slot is released; moreover for every body outcome — normal or
exceptional — the slot ends released, `is_running()` is `false` afterwards,
and a subsequent `create_runner()` succeeds. -/
theorem create_runner_exception_reports_and_releases (st : MgrState)
    (rid rid2 : Nat) (body : RunnerState → RunnerState × BodyOutcome)
    (r1 : RunnerState) (e : PyExc) (eid : Nat)
    (hst : st.current_runner = none)
    (hb : body (freshRunner rid) = (r1, .raises e))
    (he : r1.exec_item = some eid) :
    (create_runner_scope st rid body).events =
      [{ line := "Exception ❗: " ++ e.str, tag := .SYSERROR, finished := true,
         exec_item := some eid }] ∧
    (create_runner_scope st rid body).raised = some e ∧
    (∀ b2 : RunnerState → RunnerState × BodyOutcome,
      (create_runner_scope st rid b2).final.current_runner = none ∧
      is_running (create_runner_scope st rid b2).final = false ∧
      create_runner_enter (create_runner_scope st rid b2).final rid2 =
        .ok ({ (create_runner_scope st rid b2).final with
                 current_runner := some (freshRunner rid2) },
             freshRunner rid2)) := by
  cases st with
  | mk cr p =>
    change cr = none at hst
    subst hst
    have hmain : create_runner_scope { current_runner := none, paused := p } rid body =
        { raised := some e,
          events := [{ line := "Exception ❗: " ++ e.str, tag := .SYSERROR,
                       finished := true, exec_item := some eid }],
          final := { current_runner := none, paused := p } } := by
      simp only [create_runner_scope]
      rw [hb]
      simp only [he]
    refine ⟨by rw [hmain], by rw [hmain], ?_⟩
    intro b2
    have hfinal : (create_runner_scope { current_runner := none, paused := p } rid b2).final =
        { current_runner := none, paused := p } := by
      simp only [create_runner_scope]
      rcases hb2 : b2 (freshRunner rid) with ⟨r2, out⟩
      cases out with
      | normal => rfl
      | raises e2 =>
          cases hex : r2.exec_item with
          | none => simp only [hex]
          | some eid2 => simp only [hex]
    refine ⟨by rw [hfinal], by rw [hfinal]; rfl, ?_⟩
    rw [hfinal]
    rfl

/-- C3 witness: a body that records Execution Record 7 on the runner and
raises; the handler puts the tagged SYSERROR event and re-raises. -/
theorem create_runner_exception_witness :
    ({ } : MgrState).current_runner = none ∧
    (fun r : RunnerState => ({ r with exec_item := some 7 },
        BodyOutcome.raises (.exc "boom"))) (freshRunner 5) =
      ({ freshRunner 5 with exec_item := some 7 }, .raises (.exc "boom")) ∧
    ({ freshRunner 5 with exec_item := some 7 } : RunnerState).exec_item = some 7 ∧
    (create_runner_scope { } 5
        (fun r => ({ r with exec_item := some 7 },
          BodyOutcome.raises (.exc "boom")))).events =
      [{ line := "Exception ❗: boom", tag := .SYSERROR, finished := true,
         exec_item := some 7 }] := by
  refine ⟨rfl, rfl, rfl, ?_⟩
  exact (create_runner_exception_reports_and_releases { } 5 6
    (fun r => ({ r with exec_item := some 7 }, BodyOutcome.raises (.exc "boom")))
    { freshRunner 5 with exec_item := some 7 } (.exc "boom") 7
    rfl rfl rfl).1

/-- The module-frame debugger line with captured group `42` used to
exercise breakpoint detection. -/
def bpLine : String := "> /tmp/script.py(42)<module>()"

/-- Closed evaluation of `_is_breakpoint_line` on `bpLine`: pattern (a)
matches the whole line at offset 0 (the line is already lower-case). -/
theorem is_breakpoint_line_bpLine :
    is_breakpoint_line bpLine = some { start := 0, matched := bpLine } := by
  rfl

/-- C6: when the stdout reader processes a line matching the module-frame
debugger pattern with captured group `42`, the runner sets `_in_breakpoint`
and puts exactly one SYSINFO event flagged `breakpoint` whose text contains
`42` in the reported row slot (the interpolated `str( match )`, whose
matched text carries `(42)`); the line is not classified and enqueued as
ordinary INFO output. -/
theorem breakpoint_line_42_event (r : RunnerState) :
    (read_stdout_line r bpLine).1 = { r with in_breakpoint := true } ∧
    (read_stdout_line r bpLine).2 =
      [{ line := "A breakpoint occured in the script at row <re.Match object; span=(0, 30), match=\x27> /tmp/script.py(42)<module>()\x27>. Click \x27Continue\x27 to reactivate script.",
         tag := .SYSINFO, breakpoint := true, exec_item := r.exec_item }] ∧
    pyIn "42" "A breakpoint occured in the script at row <re.Match object; span=(0, 30), match=\x27> /tmp/script.py(42)<module>()\x27>. Click \x27Continue\x27 to reactivate script." = true ∧
    ∀ d ∈ (read_stdout_line r bpLine).2,
      d.tag = .SYSINFO ∧ d.breakpoint = true ∧ d.tag ≠ .INFO := by
  refine ⟨?_, ?_, by rfl, ?_⟩
  · simp only [read_stdout_line, is_breakpoint_line_bpLine]
  · simp only [read_stdout_line, is_breakpoint_line_bpLine]
    rfl
  · intro d hd
    simp only [read_stdout_line, is_breakpoint_line_bpLine, List.mem_singleton] at hd
    subst hd
    exact ⟨rfl, rfl, by simp⟩

/-- C6 witness: the breakpoint transition evaluated for a fresh runner. -/
theorem breakpoint_line_42_event_witness :
    (read_stdout_line (freshRunner 0) bpLine).1 =
      { freshRunner 0 with in_breakpoint := true } :=
  (breakpoint_line_42_event (freshRunner 0)).1

/-- C7: if `terminate()` runs before the child's natural exit, the runner's
`_terminated` flag is set, so whatever exit code the completion waiter then
observes, the Execution Record's terminated flag becomes `true` and the
terminal event has SYSINFO severity; if `terminate()` is never called, the
record's flag stays `false` and the terminal severity is SUCCESS for exit
code 0 and SYSERROR for any non-zero exit code. -/
theorem exit_code_terminated_consistency (r : RunnerState) (exec : ExecHistory)
    (mgr : MgrState) (rc : Int) (ke : Option KillExc)
    (hp : r.current_process.isSome = true) (h0 : exec.was_terminated = false) :
    ((terminate_runner r ke).1.terminated = true ∧
     (read_monitor_completion (terminate_runner r ke).1 exec mgr rc).1.was_terminated = true ∧
     (read_monitor_completion (terminate_runner r ke).1 exec mgr rc).2.1.tag = .SYSINFO) ∧
    (r.terminated = false →
      (read_monitor_completion r exec mgr rc).1.was_terminated = false ∧
      (rc = 0 → (read_monitor_completion r exec mgr rc).2.1.tag = .SUCCESS) ∧
      (rc ≠ 0 → (read_monitor_completion r exec mgr rc).2.1.tag = .SYSERROR)) := by
  constructor
  · have hterm : (terminate_runner r ke).1.terminated = true := by
      cases hproc : r.current_process with
      | none => rw [hproc] at hp; simp at hp
      | some pid =>
          cases ke with
          | none => simp [terminate_runner, hproc]
          | some k => cases k <;> simp [terminate_runner, hproc]
    exact ⟨hterm,
      by simp [read_monitor_completion, hterm, ExecHistory.set_terminated,
        ExecHistory.set_exit_code],
      by simp [read_monitor_completion, hterm]⟩
  · intro hnot
    by_cases hrc : rc = 0 <;>
      simp [read_monitor_completion, hnot, hrc, ExecHistory.set_exit_code, h0]

/-- C7 witness: a runner owning process 100 is terminated (kill succeeds)
and the waiter later sees exit code 5; and the never-terminated runner gets
SUCCESS/SYSERROR by exit code. -/
theorem exit_code_terminated_consistency_witness :
    ({ rid := 0, current_process := some 100 } : RunnerState).current_process.isSome = true ∧
    ({ } : ExecHistory).was_terminated = false ∧
    (read_monitor_completion
        (terminate_runner { rid := 0, current_process := some 100 } none).1
        { } { } 5).1.was_terminated = true := by
  refine ⟨rfl, rfl, ?_⟩
  exact (exit_code_terminated_consistency { rid := 0, current_process := some 100 }
    { } { } 5 none rfl rfl).1.2.1

/-- C5: protocol round trip — encoding
`\x7b "type": "progress", "data": \x7b "percent": 55 \x7d \x7d` with the child-side
encoder `_send` and decoding the framed line with the dispatcher's
`_parse_api_message` yields exactly the pair
`handler = "update_progress"`, `data = \x7b "percent": 55 \x7d`, with nothing
logged and nothing raised. -/
theorem api_progress_roundtrip :
    parse_api_message (send_line "progress" (.jobj [("percent", .jnum 55)])) =
      .ok (some { handler := "update_progress",
                  data := some (.jobj [("percent", .jnum 55)]) }, []) := by
  rfl

/-- C8 (counterexample): for the dequeued event whose line is
`__API_START__\x7boops\x7d__API_END__` — sentinels present, the text between
them not valid JSON — the dispatcher does not log a warning: the single log
entry it makes goes through `self._logger.error`, refuting the claim's
"logs a warning" (every other part — dropped event, no UI update, no
exception — holds). -/
theorem api_decode_failure_not_warning :
    consumer_step (.dict { line := "__API_START__\x7boops\x7d__API_END__",
                           tag := .INFO, exec_item := some 3 }) =
      ([], [.errorCouldNotDecode "\x7boops\x7d"]) ∧
    (consumer_step (.dict { line := "__API_START__\x7boops\x7d__API_END__",
                            tag := .INFO, exec_item := some 3 })).2 ≠ [] ∧
    (consumer_step (.dict { line := "__API_START__\x7boops\x7d__API_END__",
                            tag := .INFO, exec_item := some 3 })).2.all
      (fun l => !l.isWarning) = true := by
  have hstep :
      consumer_step
        (.dict { line := "__API_START__\x7boops\x7d__API_END__",
                 tag := .INFO, exec_item := some 3 }) =
      ([], [.errorCouldNotDecode "\x7boops\x7d"]) := by rfl
  refine ⟨hstep, ?_, ?_⟩
  · rw [hstep]
    simp
  · rw [hstep]
    rfl

/-- C8 (amended): for every dequeued dict event whose line matches the
sentinel envelope and whose text between the sentinels is not valid JSON,
the dispatcher logs exactly one entry — at error level, through
`self._logger.error`, not a warning — and drops the event: no UI update is
scheduled, nothing is forwarded or appended anywhere, and no exception
escapes the consumer pass. -/
theorem api_decode_failure_dropped (d : QueueDict) (m : MatchRes)
    (hin : pyIn "__API_START__" d.line = true)
    (hsearch : reSearch apiEnvelopePattern d.line = some m)
    (hbad : json_loads (envelopeCapture m) = none) :
    normalize_queue_item (.dict d) =
      .ok (none, [.errorCouldNotDecode (envelopeCapture m)]) ∧
    consumer_step (.dict d) = ([], [.errorCouldNotDecode (envelopeCapture m)]) ∧
    (LogMsg.errorCouldNotDecode (envelopeCapture m)).isWarning = false := by
  have hparse : parse_api_message d.line =
      .ok (none, [.errorCouldNotDecode (envelopeCapture m)]) := by
    unfold parse_api_message
    rw [hsearch]
    simp only [hbad]
  have hnorm : normalize_queue_item (.dict d) =
      .ok (none, [.errorCouldNotDecode (envelopeCapture m)]) := by
    simp only [normalize_queue_item, hin, if_true, hparse]
  refine ⟨hnorm, ?_, rfl⟩
  simp only [consumer_step]
  rw [if_neg (by simp), if_neg (by simp), hnorm]
  simp [schedule_ui_update]

/-- C8 witness: the amended statement instantiated at the malformed
envelope `__API_START__\x7boops\x7d__API_END__`. -/
theorem api_decode_failure_dropped_witness :
    pyIn "__API_START__" "__API_START__\x7boops\x7d__API_END__" = true ∧
    reSearch apiEnvelopePattern "__API_START__\x7boops\x7d__API_END__" =
      some { start := 0, matched := "__API_START__\x7boops\x7d__API_END__" } ∧
    json_loads (envelopeCapture
      { start := 0, matched := "__API_START__\x7boops\x7d__API_END__" }) = none ∧
    consumer_step (.dict { line := "__API_START__\x7boops\x7d__API_END__",
                           tag := .INFO, exec_item := some 3 }) =
      ([], [.errorCouldNotDecode (envelopeCapture
              { start := 0, matched := "__API_START__\x7boops\x7d__API_END__" })]) := by
  refine ⟨rfl, rfl, rfl, ?_⟩
  exact (api_decode_failure_dropped
    { line := "__API_START__\x7boops\x7d__API_END__", tag := .INFO, exec_item := some 3 }
    { start := 0, matched := "__API_START__\x7boops\x7d__API_END__" }
    rfl rfl rfl).2.1

/-- C1 (code bug): the 3-step scenario — `sequence.stop_on_error = False`,
step 2 with `stop_on_error = True` exiting 1, no user termination.  The
runner does put exactly one SYSERROR event naming step 2 and exit code 1,
but because line 838 unconditionally resets `run_success` to 0 before the
`if run_success > 0` test, the abort branch is unreachable: step 3 runs
(all three indexes are started) and no summary SYSWARNING event is put. -/
theorem sequence_runner_no_abort_bug :
    sequence_runner false
        [({ step_index := 1, stop_on_error := false }, { exit_code := 0, terminated := false, exec_item := 10 }),
         ({ step_index := 2, stop_on_error := true }, { exit_code := 1, terminated := false, exec_item := 11 }),
         ({ step_index := 3, stop_on_error := false }, { exit_code := 0, terminated := false, exec_item := 12 })] =
      ([1, 2, 3],
       [{ line := "Stopped on error at step 2 (exit code: 1)",
          tag := .SYSERROR, exec_item := some 11 }]) ∧
    ∀ d ∈ (sequence_runner false
        [({ step_index := 1, stop_on_error := false }, { exit_code := 0, terminated := false, exec_item := 10 }),
         ({ step_index := 2, stop_on_error := true }, { exit_code := 1, terminated := false, exec_item := 11 }),
         ({ step_index := 3, stop_on_error := false }, { exit_code := 0, terminated := false, exec_item := 12 })]).2,
      d.tag ≠ OutputStyleTags.SYSWARNING := by
  refine ⟨by rfl, ?_⟩
  intro d hd
  rw [show (sequence_runner false
      [({ step_index := 1, stop_on_error := false }, { exit_code := 0, terminated := false, exec_item := 10 }),
       ({ step_index := 2, stop_on_error := true }, { exit_code := 1, terminated := false, exec_item := 11 }),
       ({ step_index := 3, stop_on_error := false }, { exit_code := 0, terminated := false, exec_item := 12 })]).2 =
    [{ line := "Stopped on error at step 2 (exit code: 1)",
       tag := .SYSERROR, exec_item := some 11 }] from rfl] at hd
  simp only [List.mem_singleton] at hd
  subst hd
  simp

end AM
